import Mathlib

/-!
Verification of the order-lifecycle core of the ITech-Gadgets-Hub backend.

The definitions below are a shallow embedding of the JavaScript source:
- src/unnamed/part_000 (order controller: addOrderItems, getOrderById,
  processOrderRefund, cancelOrder),
- src/backend/config/stripe.js (createPaymentIntent, processRefund).

The record store (Mongoose) is modelled as explicit state (`DB`) threaded
through each operation; `await Product.findById` becomes a lookup, `save`
a functional update.  JavaScript `throw` + `res.status(n)` becomes an
`Except ErrResp` result paired with the (possibly mutated) state, since
saves performed before a throw stay committed.  Monetary amounts are
modelled as exact rationals; `Math.round` is embedded as
`fun x => Int.floor (x + 1/2)`, its real-number semantics.  Quantities are
natural numbers, per the data model (quantity is a positive integer).
The Payment Gateway is an injected function argument, so theorems can
quantify over gateway success and failure.
-/

abbrev ProductId := Nat
abbrev OrderId := Nat
abbrev UserId := Nat

structure Product where
  name : String
  price : ℚ
  countInStock : Int
  deriving Repr, DecidableEq

structure OrderItem where
  name : String
  quantity : Nat
  image : String
  price : ℚ
  product : ProductId
  deriving Repr, DecidableEq

inductive OrderStatus
  | Placed
  | Shipped
  | Delivered
  | Canceled
  | Refunded
  deriving Repr, DecidableEq

/-- paymentResult subdocument of an Order.  `id` is an `Option` because the
controller stores `paymentIntent.id`, which can be `undefined` (`none`). -/
structure PaymentResult where
  id : Option String
  status : Option String
  deriving Repr, DecidableEq

structure RefundResult where
  id : String
  status : String
  deriving Repr, DecidableEq

structure Order where
  user : UserId
  orderItems : List OrderItem
  shippingAddress : String
  paymentMethod : String
  itemsPrice : ℚ
  taxPrice : ℚ
  shippingPrice : ℚ
  totalPrice : ℚ
  orderStatus : OrderStatus
  isPaid : Bool
  isRefunded : Bool
  paymentResult : PaymentResult
  refundResult : Option RefundResult
  paidAt : Option Nat
  canceledAt : Option Nat
  refundedAt : Option Nat
  deriving Repr, DecidableEq

/-- Error response: `res.status(n)` plus the thrown message. -/
structure ErrResp where
  status : Nat
  msg : String
  deriving Repr, DecidableEq

/-- The record store: Products and Orders keyed by identifier. -/
structure DB where
  products : ProductId → Option Product
  orders : OrderId → Option Order

def DB.saveProduct (db : DB) (pid : ProductId) (p : Product) : DB :=
  { db with products := fun q => if q = pid then some p else db.products q }

def DB.saveOrder (db : DB) (oid : OrderId) (o : Order) : DB :=
  { db with orders := fun q => if q = oid then some o else db.orders q }

/-- countInStock of a product, when it exists. -/
def stockOf (db : DB) (pid : ProductId) : Option Int :=
  (db.products pid).map (fun p => p.countInStock)

/-- The invariant of the spec: every existing product has non-negative stock. -/
def stocksNonneg (db : DB) : Prop :=
  ∀ pid c, stockOf db pid = some c → 0 ≤ c

/-- Total quantity an order's item list requests of product `pid`. -/
def qtyFor (items : List OrderItem) (pid : ProductId) : Nat :=
  ((items.filter (fun i => i.product = pid)).map (fun i => i.quantity)).sum

/-! ## src/backend/config/stripe.js -/

/-- JavaScript Math.round over exact rationals: round half toward +infinity. -/
def jsRound (x : ℚ) : Int := Int.floor (x + 1/2)

/-- A Stripe payment-intent object as returned by stripe.paymentIntents.create. -/
structure PaymentIntent where
  id : String
  client_secret : String
  status : String
  deriving Repr, DecidableEq

/-- createPaymentIntent (stripe.js lines 7-19): calls the gateway with
`Math.round(amount * 100)` minor units and — as written on line 14 — returns
`paymentIntent.client_secret`, the secret string only, not the intent object.
The gateway `create` is injected; errors are rethrown unchanged. -/
def createPaymentIntent (create : Int → String → Except String PaymentIntent)
    (amount : ℚ) (currency : String) : Except String String :=
  match create (jsRound (amount * 100)) currency with
  | .ok paymentIntent => .ok paymentIntent.client_secret
  | .error e => .error e

/-- processRefund (stripe.js lines 21-33): refunds `Math.round(amount * 100)`
minor units against a payment-intent id (an `Option`, since the id stored on
the order may be `undefined`); errors are rethrown unchanged. -/
def processRefund (refundsCreate : Option String → Int → Except String RefundResult)
    (paymentIntentId : Option String) (amount : ℚ) : Except String RefundResult :=
  refundsCreate paymentIntentId (jsRound (amount * 100))

/-- JavaScript property access `v.id` where `v` is a string value: strings have
no `id` property, so the access yields `undefined` (`none`).  `addOrderItems`
performs this access on the value returned by `createPaymentIntent`. -/
def jsGetId (_v : String) : Option String := none

/-- JavaScript property access `v.client_secret` on a string value: yields
`undefined` (`none`), as for `jsGetId`. -/
def jsGetClientSecret (_v : String) : Option String := none

/-! ## Order controller (src/unnamed/part_000) -/

/-- Request body of POST /api/orders. -/
structure OrderReq where
  orderItems : List OrderItem
  shippingAddress : String
  paymentMethod : String
  itemsPrice : ℚ
  taxPrice : ℚ
  shippingPrice : ℚ
  totalPrice : ℚ

/-- The validation loop of addOrderItems (part_000 lines 208-220): for each
item in order, look the product up; throw 404 if absent, 400 if
`countInStock < quantity`.  No state is mutated. -/
def validateItems (db : DB) : List OrderItem → Except ErrResp Unit
  | [] => .ok ()
  | item :: rest =>
    match db.products item.product with
    | none => .error ⟨404, "Product not found: " ++ toString item.product⟩
    | some product =>
      if product.countInStock < (item.quantity : Int) then
        .error ⟨400, "Insufficient stock for product: " ++ product.name⟩
      else
        validateItems db rest

/-- The stock-update loop of addOrderItems (part_000 lines 241-245): for each
item in order, re-fetch the product, subtract the quantity, save.  The `none`
branch is unreachable after a successful validation pass (the JavaScript would
throw a TypeError there); it skips, which keeps the function total. -/
def debitItems : DB → List OrderItem → DB
  | db, [] => db
  | db, item :: rest =>
    match db.products item.product with
    | none => debitItems db rest
    | some product =>
      debitItems
        (db.saveProduct item.product
          { product with countInStock := product.countInStock - (item.quantity : Int) })
        rest

/-- The stock-restore loop shared by processOrderRefund (part_000 lines
394-401) and cancelOrder (lines 431-438): for each item, fetch the product,
and if it exists add the quantity back and save. -/
def restockItems : DB → List OrderItem → DB
  | db, [] => db
  | db, item :: rest =>
    match db.products item.product with
    | none => restockItems db rest
    | some product =>
      restockItems
        (db.saveProduct item.product
          { product with countInStock := product.countInStock + (item.quantity : Int) })
        rest

/-- Modelled from the spec: the Order schema (orderModel.js, which is not under
src/) supplies the defaults of a freshly constructed Order — orderStatus =
Placed, isPaid = false, isRefunded = false, no payment/refund results and no
timestamps (spec sections 3 and 4.1 step 6).  The explicit fields mirror the
`new Order({...})` call of addOrderItems (part_000 lines 223-238), including
the field-by-field copy of the request's order items. -/
def newOrder (user : UserId) (req : OrderReq) : Order :=
  { user := user
    orderItems := req.orderItems.map (fun item =>
      { name := item.name
        quantity := item.quantity
        image := item.image
        price := item.price
        product := item.product })
    shippingAddress := req.shippingAddress
    paymentMethod := req.paymentMethod
    itemsPrice := req.itemsPrice
    taxPrice := req.taxPrice
    shippingPrice := req.shippingPrice
    totalPrice := req.totalPrice
    orderStatus := .Placed
    isPaid := false
    isRefunded := false
    paymentResult := ⟨none, none⟩
    refundResult := none
    paidAt := none
    canceledAt := none
    refundedAt := none }

/-- addOrderItems (part_000 lines 190-263).  Returns the state (mutations
before a throw stay committed) and either an error or the created order plus
the clientSecret field sent in the 201 response.  Steps, as in the source:
reject an empty item list (400), validate every item before any mutation,
debit stock item by item, request the payment authorization (a failure
propagates as a 500 with the gateway message, after the debits are saved),
attach `paymentResult = {id: paymentIntent.id, status: 'pending'}`, save the
order, and respond with the order and `paymentIntent.client_secret` — where
`paymentIntent` is the string returned by createPaymentIntent, so both
property accesses go through `jsGetId` / `jsGetClientSecret`. -/
def addOrderItems (create : Int → String → Except String PaymentIntent)
    (user : UserId) (newOrderId : OrderId) (req : OrderReq) (db : DB) :
    DB × Except ErrResp (Order × Option String) :=
  if req.orderItems.isEmpty then
    (db, .error ⟨400, "No order items"⟩)
  else
    match validateItems db req.orderItems with
    | .error e => (db, .error e)
    | .ok _ =>
      let order := newOrder user req
      let db1 := debitItems db req.orderItems
      match createPaymentIntent create req.totalPrice "usd" with
      | .error e => (db1, .error ⟨500, e⟩)
      | .ok paymentIntent =>
        let order1 := { order with
          paymentResult := ⟨jsGetId paymentIntent, some "pending"⟩ }
        (db1.saveOrder newOrderId order1, .ok (order1, jsGetClientSecret paymentIntent))

/-- The acting identity of a request: req.user._id and req.user.role. -/
structure ReqUser where
  _id : UserId
  role : String

/-- getOrderById (part_000 lines 267-283): 404 if the order is absent; 403
unless the caller is the order's owner or has the admin role; otherwise the
order is returned.  No mutation. -/
def getOrderById (reqUser : ReqUser) (orderId : OrderId) (db : DB) :
    DB × Except ErrResp Order :=
  match db.orders orderId with
  | none => (db, .error ⟨404, "Order not found"⟩)
  | some order =>
    if order.user ≠ reqUser._id ∧ reqUser.role ≠ "admin" then
      (db, .error ⟨403, "Not authorized to view this order"⟩)
    else
      (db, .ok order)

/-- The order-field mutation block of processOrderRefund (part_000 lines
386-392): isRefunded, refundedAt, orderStatus = Refunded, and refundResult
copied from the gateway response. -/
def refundedOrder (order : Order) (now : Nat) (r : RefundResult) : Order :=
  { order with
    isRefunded := true
    refundedAt := some now
    orderStatus := .Refunded
    refundResult := some ⟨r.id, r.status⟩ }

/-- The order-field mutation block of cancelOrder (part_000 lines 441-442):
orderStatus = Canceled and canceledAt = now. -/
def canceledOrder (order : Order) (now : Nat) : Order :=
  { order with orderStatus := .Canceled, canceledAt := some now }

/-- processOrderRefund (part_000 lines 364-413): 404 if absent; 400 "Order
cannot be refunded" if `!order.isPaid || order.isRefunded`; otherwise call the
gateway via processRefund with `order.paymentResult.id` and `order.totalPrice`
— a gateway failure is caught and rethrown as 500 "Refund processing failed:
<message>" with nothing persisted — then set isRefunded/refundedAt/orderStatus
= Refunded/refundResult, restock every item, and save the order. -/
def processOrderRefund (refundsCreate : Option String → Int → Except String RefundResult)
    (now : Nat) (orderId : OrderId) (db : DB) : DB × Except ErrResp Order :=
  match db.orders orderId with
  | none => (db, .error ⟨404, "Order not found"⟩)
  | some order =>
    if !order.isPaid || order.isRefunded then
      (db, .error ⟨400, "Order cannot be refunded"⟩)
    else
      match processRefund refundsCreate order.paymentResult.id order.totalPrice with
      | .error e => (db, .error ⟨500, "Refund processing failed: " ++ e⟩)
      | .ok refundResult =>
        let order1 := refundedOrder order now refundResult
        let db1 := restockItems db order.orderItems
        (db1.saveOrder orderId order1, .ok order1)

/-- cancelOrder (part_000 lines 417-450): 404 if absent; 400 "Order cannot be
canceled" if orderStatus is Shipped or Delivered; otherwise restock every
item, set orderStatus = Canceled and canceledAt = now, and save the order. -/
def cancelOrder (now : Nat) (orderId : OrderId) (db : DB) : DB × Except ErrResp Order :=
  match db.orders orderId with
  | none => (db, .error ⟨404, "Order not found"⟩)
  | some order =>
    if order.orderStatus = .Shipped ∨ order.orderStatus = .Delivered then
      (db, .error ⟨400, "Order cannot be canceled"⟩)
    else
      let db1 := restockItems db order.orderItems
      let order1 := canceledOrder order now
      (db1.saveOrder orderId order1, .ok order1)

/-! ## Operation sequences, for the stock invariant -/

/-- One step of the claims' operation alphabet: order placement, cancel,
refund.  Each placement and refund carries its injected gateway. -/
inductive Op
  | place (create : Int → String → Except String PaymentIntent)
      (user : UserId) (newOrderId : OrderId) (req : OrderReq)
  | cancel (now : Nat) (orderId : OrderId)
  | refund (refundsCreate : Option String → Int → Except String RefundResult)
      (now : Nat) (orderId : OrderId)

def runOp (db : DB) : Op → DB
  | .place create user newOrderId req => (addOrderItems create user newOrderId req db).1
  | .cancel now orderId => (cancelOrder now orderId db).1
  | .refund refundsCreate now orderId => (processOrderRefund refundsCreate now orderId db).1

def runOps (db : DB) (ops : List Op) : DB := ops.foldl runOp db

/-- A placement request references pairwise-distinct products (no product id
appears in two items).  Cancel and refund satisfy it vacuously. -/
def placeDistinct : Op → Prop
  | .place _ _ _ req => (req.orderItems.map (fun i => i.product)).Nodup
  | _ => True

instance : ∀ op : Op, Decidable (placeDistinct op) := fun op => by
  cases op with
  | place create user newOrderId req => exact inferInstanceAs (Decidable ((req.orderItems.map (fun i => i.product)).Nodup))
  | cancel now orderId => exact inferInstanceAs (Decidable True)
  | refund refundsCreate now orderId => exact inferInstanceAs (Decidable True)

/-! ## Concrete inputs used by the witnesses and counterexamples -/

/-- A gateway that always authorizes, with a fixed intent. -/
def gwOk : Int → String → Except String PaymentIntent :=
  fun _ _ => .ok ⟨"pi_1", "secret_1", "requires_payment_method"⟩

/-- A gateway whose authorization call fails. -/
def gwFail : Int → String → Except String PaymentIntent :=
  fun _ _ => .error "card_declined"

/-- A gateway used to observe the authorization, with distinct ids. -/
def gwC6 : Int → String → Except String PaymentIntent :=
  fun _ _ => .ok ⟨"pi_123", "secret_123", "requires_payment_method"⟩

/-- A refund gateway that always succeeds. -/
def rgOk : Option String → Int → Except String RefundResult :=
  fun _ _ => .ok ⟨"re_1", "succeeded"⟩

/-- A refund gateway whose refund call fails. -/
def rgFail : Option String → Int → Except String RefundResult :=
  fun _ _ => .error "charge_already_refunded"

/-- A recording payment gateway: fails with the minor-unit amount it was
handed, so theorems can read off exactly what was sent. -/
def recGw : Int → String → Except String PaymentIntent :=
  fun n _ => .error (toString n)

/-- A recording refund gateway, as `recGw`. -/
def recRg : Option String → Int → Except String RefundResult :=
  fun _ n => .error (toString n)

/-- One product (id 0, stock 3), no orders. -/
def dbDup : DB :=
  { products := fun pid => if pid = 0 then some ⟨"Widget", 5, 3⟩ else none
    orders := fun _ => none }

/-- A placement request naming product 0 twice, quantity 2 each: each line
passes the per-item check against stock 3, but the two debits sum to 4. -/
def dupReq : OrderReq :=
  { orderItems := [⟨"Widget", 2, "img", 5, 0⟩, ⟨"Widget", 2, "img", 5, 0⟩]
    shippingAddress := "a"
    paymentMethod := "card"
    itemsPrice := 10
    taxPrice := 0
    shippingPrice := 0
    totalPrice := 10 }

/-- One product (id 0, stock 5), no orders. -/
def dbOne : DB :=
  { products := fun pid => if pid = 0 then some ⟨"Widget", 5, 5⟩ else none
    orders := fun _ => none }

/-- A single-item request: product 0, quantity 3. -/
def oneReq : OrderReq :=
  { orderItems := [⟨"Widget", 3, "img", 5, 0⟩]
    shippingAddress := "a"
    paymentMethod := "card"
    itemsPrice := 15
    taxPrice := 0
    shippingPrice := 0
    totalPrice := 15 }

/-- A single-item request for quantity 9, exceeding stock 5 of product 0. -/
def bigReq : OrderReq :=
  { orderItems := [⟨"Widget", 9, "img", 5, 0⟩]
    shippingAddress := "a"
    paymentMethod := "card"
    itemsPrice := 45
    taxPrice := 0
    shippingPrice := 0
    totalPrice := 45 }

/-- A paid, not-yet-refunded order of user 7: one item, product 0, quantity 3. -/
def orderPaid : Order :=
  { user := 7
    orderItems := [⟨"Widget", 3, "img", 5, 0⟩]
    shippingAddress := "a"
    paymentMethod := "card"
    itemsPrice := 15
    taxPrice := 0
    shippingPrice := 0
    totalPrice := 15
    orderStatus := .Placed
    isPaid := true
    isRefunded := false
    paymentResult := ⟨some "pi_1", some "succeeded"⟩
    refundResult := none
    paidAt := some 1
    canceledAt := none
    refundedAt := none }

/-- An order already canceled. -/
def orderCanceled : Order :=
  { orderPaid with orderStatus := .Canceled, isPaid := false, canceledAt := some 2 }

/-- An order already delivered. -/
def orderDelivered : Order :=
  { orderPaid with orderStatus := .Delivered }

/-- Product 0 (stock 2) plus three orders: 1 paid, 2 canceled, 3 delivered. -/
def dbOrd : DB :=
  { products := fun pid => if pid = 0 then some ⟨"Widget", 5, 2⟩ else none
    orders := fun oid =>
      if oid = 1 then some orderPaid
      else if oid = 2 then some orderCanceled
      else if oid = 3 then some orderDelivered
      else none }

/-- An order line the validation loop rejects: its product is absent, or its
requested quantity exceeds the product's countInStock. -/
def stockFailure (db : DB) (i : OrderItem) : Prop :=
  db.products i.product = none
    ∨ ∃ p, db.products i.product = some p ∧ p.countInStock < (i.quantity : Int)

/-- The two error shapes the validation loop can produce. -/
def stockErrShape (e : ErrResp) : Prop :=
  (e.status = 404 ∧ ∃ pid : ProductId, e.msg = "Product not found: " ++ toString pid)
    ∨ (e.status = 400 ∧ ∃ s, e.msg = "Insufficient stock for product: " ++ s)

/-! ## Helper lemmas -/

theorem stockOf_saveProduct (db : DB) (pid : ProductId) (p : Product) (q : ProductId) :
    stockOf (db.saveProduct pid p) q
      = if q = pid then some p.countInStock else stockOf db q := by
  by_cases h : q = pid <;> simp [stockOf, DB.saveProduct, h]

theorem stockOf_saveOrder (db : DB) (oid : OrderId) (o : Order) (pid : ProductId) :
    stockOf (db.saveOrder oid o) pid = stockOf db pid := rfl

theorem saveOrder_orders_self (db : DB) (oid : OrderId) (o : Order) :
    (db.saveOrder oid o).orders oid = some o := by
  simp [DB.saveOrder]

theorem debitItems_orders (items : List OrderItem) (db : DB) :
    (debitItems db items).orders = db.orders := by
  induction items generalizing db with
  | nil => rfl
  | cons i rest ih =>
    rw [debitItems]
    cases db.products i.product with
    | none => exact ih db
    | some p => exact ih _

theorem restockItems_orders (items : List OrderItem) (db : DB) :
    (restockItems db items).orders = db.orders := by
  induction items generalizing db with
  | nil => rfl
  | cons i rest ih =>
    rw [restockItems]
    cases db.products i.product with
    | none => exact ih db
    | some p => exact ih _

theorem qtyFor_cons_self (i : OrderItem) (rest : List OrderItem) :
    qtyFor (i :: rest) i.product = i.quantity + qtyFor rest i.product := by
  simp [qtyFor, List.filter_cons]

theorem qtyFor_cons_ne (i : OrderItem) (rest : List OrderItem) (pid : ProductId)
    (h : i.product ≠ pid) :
    qtyFor (i :: rest) pid = qtyFor rest pid := by
  simp [qtyFor, List.filter_cons, h]

theorem debitItems_stockOf (items : List OrderItem) (db : DB) (pid : ProductId) :
    stockOf (debitItems db items) pid
      = (stockOf db pid).map (fun c => c - (qtyFor items pid : Int)) := by
  induction items generalizing db with
  | nil => cases h : db.products pid <;> simp [debitItems, stockOf, qtyFor, h]
  | cons i rest ih =>
    rw [debitItems]
    cases hp : db.products i.product with
    | none =>
      rw [ih]
      by_cases hq : i.product = pid
      · subst hq
        simp [stockOf, hp]
      · rw [qtyFor_cons_ne i rest pid hq]
    | some p =>
      by_cases hq : i.product = pid
      · subst hq
        rw [ih, stockOf_saveProduct, if_pos rfl, qtyFor_cons_self]
        simp only [stockOf, hp, Option.map_some', Option.some.injEq]
        push_cast
        omega
      · rw [ih, stockOf_saveProduct, if_neg (fun h => hq h.symm),
          qtyFor_cons_ne i rest pid hq]

theorem restockItems_stockOf (items : List OrderItem) (db : DB) (pid : ProductId) :
    stockOf (restockItems db items) pid
      = (stockOf db pid).map (fun c => c + (qtyFor items pid : Int)) := by
  induction items generalizing db with
  | nil => cases h : db.products pid <;> simp [restockItems, stockOf, qtyFor, h]
  | cons i rest ih =>
    rw [restockItems]
    cases hp : db.products i.product with
    | none =>
      rw [ih]
      by_cases hq : i.product = pid
      · subst hq
        simp [stockOf, hp]
      · rw [qtyFor_cons_ne i rest pid hq]
    | some p =>
      by_cases hq : i.product = pid
      · subst hq
        rw [ih, stockOf_saveProduct, if_pos rfl, qtyFor_cons_self]
        simp only [stockOf, hp, Option.map_some', Option.some.injEq]
        push_cast
        omega
      · rw [ih, stockOf_saveProduct, if_neg (fun h => hq h.symm),
          qtyFor_cons_ne i rest pid hq]

theorem qtyFor_eq_zero_of_not_mem (items : List OrderItem) (pid : ProductId)
    (h : pid ∉ items.map (fun i => i.product)) : qtyFor items pid = 0 := by
  induction items with
  | nil => rfl
  | cons j rest ih =>
    simp only [List.map_cons, List.mem_cons, not_or] at h
    rw [qtyFor_cons_ne j rest pid (fun he => h.1 he.symm)]
    exact ih h.2

theorem qtyFor_eq_of_mem (items : List OrderItem) (i : OrderItem)
    (hnd : (items.map (fun i => i.product)).Nodup) (hi : i ∈ items) :
    qtyFor items i.product = i.quantity := by
  induction items with
  | nil => cases hi
  | cons j rest ih =>
    rcases List.mem_cons.mp hi with rfl | hir
    · rw [qtyFor_cons_self,
        qtyFor_eq_zero_of_not_mem rest i.product (List.nodup_cons.mp hnd).1]
      omega
    · have hne : j.product ≠ i.product := by
        intro he
        apply (List.nodup_cons.mp hnd).1
        show j.product ∈ rest.map (fun i => i.product)
        rw [he]
        exact List.mem_map.mpr ⟨i, hir, rfl⟩
      rw [qtyFor_cons_ne j rest i.product hne]
      exact ih (List.nodup_cons.mp hnd).2 hir

theorem validateItems_ok_bound (db : DB) (items : List OrderItem)
    (h : validateItems db items = .ok ()) :
    ∀ i ∈ items, ∃ p, db.products i.product = some p
      ∧ (i.quantity : Int) ≤ p.countInStock := by
  induction items with
  | nil => intro i hi; exact absurd hi (List.not_mem_nil i)
  | cons j rest ih =>
    cases hp : db.products j.product with
    | none => rw [validateItems, hp] at h; exact Except.noConfusion h
    | some p =>
      rw [validateItems, hp] at h
      simp only [] at h
      by_cases hlt : p.countInStock < (j.quantity : Int)
      · rw [if_pos hlt] at h; exact Except.noConfusion h
      · rw [if_neg hlt] at h
        intro i hi
        rcases List.mem_cons.mp hi with rfl | hir
        · exact ⟨p, hp, le_of_not_lt hlt⟩
        · exact ih h i hir

theorem validateItems_bad_error (db : DB) (items : List OrderItem)
    (hbad : ∃ i ∈ items, stockFailure db i) :
    ∃ e, validateItems db items = .error e ∧ stockErrShape e := by
  induction items with
  | nil =>
    rcases hbad with ⟨i, hi, _⟩
    exact absurd hi (List.not_mem_nil i)
  | cons j rest ih =>
    rw [validateItems]
    cases hp : db.products j.product with
    | none => exact ⟨_, rfl, Or.inl ⟨rfl, j.product, rfl⟩⟩
    | some p =>
      simp only []
      by_cases hlt : p.countInStock < (j.quantity : Int)
      · rw [if_pos hlt]
        exact ⟨_, rfl, Or.inr ⟨rfl, p.name, rfl⟩⟩
      · rw [if_neg hlt]
        apply ih
        rcases hbad with ⟨i, hi, hbadi⟩
        rcases List.mem_cons.mp hi with rfl | hir
        · rcases hbadi with hnone | ⟨q, hq, hqlt⟩
          · rw [hp] at hnone; exact Option.noConfusion hnone
          · rw [hp] at hq
            injection hq with hq
            exact absurd (hq ▸ hqlt) hlt
        · exact ⟨i, hir, hbadi⟩

theorem stocksNonneg_restock (db : DB) (items : List OrderItem)
    (h : stocksNonneg db) : stocksNonneg (restockItems db items) := by
  intro pid c hc
  rw [restockItems_stockOf] at hc
  cases hs : stockOf db pid with
  | none => rw [hs] at hc; exact Option.noConfusion hc
  | some c0 =>
    rw [hs] at hc
    simp only [Option.map_some'] at hc
    injection hc with hc
    have h0 := h pid c0 hs
    omega

theorem stocksNonneg_debit (db : DB) (items : List OrderItem)
    (hnd : (items.map (fun i => i.product)).Nodup)
    (hv : validateItems db items = .ok ())
    (h : stocksNonneg db) : stocksNonneg (debitItems db items) := by
  intro pid c hc
  rw [debitItems_stockOf] at hc
  cases hs : stockOf db pid with
  | none => rw [hs] at hc; exact Option.noConfusion hc
  | some c0 =>
    rw [hs] at hc
    simp only [Option.map_some'] at hc
    injection hc with hc
    by_cases hmem : pid ∈ items.map (fun i => i.product)
    · rcases List.mem_map.mp hmem with ⟨i, hi, hip⟩
      subst hip
      have hq : qtyFor items i.product = i.quantity := qtyFor_eq_of_mem items i hnd hi
      rcases validateItems_ok_bound db items hv i hi with ⟨p, hp, hle⟩
      simp only [stockOf, hp, Option.map_some', Option.some.injEq] at hs
      omega
    · have hq : qtyFor items pid = 0 := qtyFor_eq_zero_of_not_mem items pid hmem
      have h0 := h pid c0 hs
      omega

theorem addOrderItems_stocksNonneg
    (create : Int → String → Except String PaymentIntent)
    (user : UserId) (newOrderId : OrderId) (req : OrderReq) (db : DB)
    (hnd : (req.orderItems.map (fun i => i.product)).Nodup)
    (h : stocksNonneg db) :
    stocksNonneg (addOrderItems create user newOrderId req db).1 := by
  rw [addOrderItems]
  by_cases he : req.orderItems.isEmpty
  · rw [if_pos he]; exact h
  · rw [if_neg he]
    cases hv : validateItems db req.orderItems with
    | error e => exact h
    | ok u =>
      cases u
      cases hpi : createPaymentIntent create req.totalPrice "usd" with
      | error e => exact stocksNonneg_debit db req.orderItems hnd hv h
      | ok s =>
        exact fun pid c hc => stocksNonneg_debit db req.orderItems hnd hv h pid c hc

theorem cancelOrder_stocksNonneg (now : Nat) (oid : OrderId) (db : DB)
    (h : stocksNonneg db) : stocksNonneg (cancelOrder now oid db).1 := by
  rw [cancelOrder]
  split
  · exact h
  · split
    · exact h
    · exact fun pid c hc => stocksNonneg_restock db _ h pid c hc

theorem processOrderRefund_stocksNonneg
    (refundsCreate : Option String → Int → Except String RefundResult)
    (now : Nat) (oid : OrderId) (db : DB)
    (h : stocksNonneg db) : stocksNonneg (processOrderRefund refundsCreate now oid db).1 := by
  rw [processOrderRefund]
  split
  · exact h
  · split
    · exact h
    · split
      · exact h
      · exact fun pid c hc => stocksNonneg_restock db _ h pid c hc

theorem runOps_stocksNonneg (ops : List Op) (db : DB)
    (hops : ∀ op ∈ ops, placeDistinct op) (h : stocksNonneg db) :
    stocksNonneg (runOps db ops) := by
  induction ops generalizing db with
  | nil => exact h
  | cons op rest ih =>
    rw [runOps, List.foldl_cons]
    apply ih _ (fun o ho => hops o (List.mem_cons_of_mem _ ho))
    cases op with
    | place create user newOrderId req =>
      exact addOrderItems_stocksNonneg create user newOrderId req db
        (hops _ (List.mem_cons_self _ _)) h
    | cancel now oid => exact cancelOrder_stocksNonneg now oid db h
    | refund refundsCreate now oid =>
      exact processOrderRefund_stocksNonneg refundsCreate now oid db h


/-! ## Claims -/

/-- Claim C1, counterexample.  The claim asserts countInStock stays
non-negative under every sequence of placement/cancel/refund operations from
a non-negative state.  From a state where product 0 has stock 3 (every stock
non-negative), a single accepted placement whose item list names product 0
twice with quantity 2 each leaves product 0 at stock -1: the validation loop
checks each line against the original stock (2 ≤ 3 twice), and the debit loop
then subtracts 2 twice. -/
theorem claim_C1_counterexample :
    stocksNonneg dbDup
    ∧ (addOrderItems gwOk 7 1 dupReq dbDup).2
        = .ok ({ newOrder 7 dupReq with paymentResult := ⟨none, some "pending"⟩ }, none)
    ∧ stockOf (runOps dbDup [.place gwOk 7 1 dupReq]) 0 = some (-1) := by
  refine ⟨?_, rfl, rfl⟩
  intro pid c h
  by_cases hp : pid = 0
  · subst hp
    have h3 : stockOf dbDup 0 = some 3 := rfl
    rw [h3] at h
    injection h with h
    omega
  · simp [dbDup, stockOf, hp] at h

/-- Claim C1, amended: from a state in which every product's countInStock is
non-negative, any sequence of order-placement, cancel and refund operations in
which each placement's item list references pairwise-distinct products leaves
every product's countInStock non-negative after each operation (placement
debits only quantities it has just checked against stock; cancel and refund
only add). -/
theorem claim_C1_amended (ops : List Op) (db : DB)
    (hops : ∀ op ∈ ops, placeDistinct op) (h : stocksNonneg db) :
    stocksNonneg (runOps db ops) :=
  runOps_stocksNonneg ops db hops h

/-- Claim C1, witness: the amended theorem applied to the concrete state with
product 0 at stock 5 and the sequence place (quantity 3), then cancel. -/
theorem claim_C1_amended_witness :
    stocksNonneg (runOps dbOne [.place gwOk 7 1 oneReq, .cancel 5 1]) := by
  apply claim_C1_amended
  · intro op hop
    rcases List.mem_cons.mp hop with rfl | hop
    · show (oneReq.orderItems.map (fun i => i.product)).Nodup
      decide
    · rcases List.mem_cons.mp hop with rfl | hop
      · trivial
      · exact absurd hop (List.not_mem_nil _)
  · intro pid c h
    by_cases hp : pid = 0
    · subst hp
      have h5 : stockOf dbOne 0 = some 5 := rfl
      rw [h5] at h
      injection h with h
      omega
    · simp [dbOne, stockOf, hp] at h

/-- Claim C2: a placement request containing an item whose product is missing
or whose quantity exceeds that product's countInStock fails as a whole — the
result state is the unchanged input state (no stock debited) and the error is
the 404 "Product not found" or the 400 "Insufficient stock" response.  The
validation loop runs to completion before the debit loop starts, so the
validate-all-then-commit-all policy holds in the code. -/
theorem claim_C2 (create : Int → String → Except String PaymentIntent)
    (user : UserId) (newOrderId : OrderId) (req : OrderReq) (db : DB)
    (hbad : ∃ i ∈ req.orderItems, stockFailure db i) :
    ∃ e, addOrderItems create user newOrderId req db = (db, .error e)
      ∧ stockErrShape e := by
  rcases validateItems_bad_error db req.orderItems hbad with ⟨e, hv, hshape⟩
  refine ⟨e, ?_, hshape⟩
  rcases hbad with ⟨i, hi, _⟩
  have hne : ¬(req.orderItems.isEmpty = true) := by
    intro hemp
    cases hl : req.orderItems with
    | nil => rw [hl] at hi; exact absurd hi (List.not_mem_nil i)
    | cons a l => rw [hl] at hemp; exact Bool.noConfusion hemp
  rw [addOrderItems, if_neg hne, hv]

/-- Claim C2, witness: requesting quantity 9 of product 0 when its stock is 5
fails with the insufficient-stock error and leaves the state unchanged. -/
theorem claim_C2_witness :
    ∃ e, addOrderItems gwOk 7 1 bigReq dbOne = (dbOne, .error e)
      ∧ stockErrShape e := by
  apply claim_C2
  refine ⟨⟨"Widget", 9, "img", 5, 0⟩, List.mem_cons_self _ _,
    Or.inr ⟨⟨"Widget", 5, 5⟩, rfl, ?_⟩⟩
  decide

/-- Claim C3: refunding an order with isPaid false or isRefunded true fails
with the 400 "Order cannot be refunded" response and mutates nothing; and
after a successful refund the order is stored with isRefunded true and its
refundResult set to the gateway response, so a second refund of the same
order fails with that same error and changes nothing — refundResult is
assigned exactly once across the two calls. -/
theorem claim_C3 (rg rg2 : Option String → Int → Except String RefundResult)
    (now now2 : Nat) (oid : OrderId) (db : DB) (order : Order)
    (hfind : db.orders oid = some order) :
    ((order.isPaid = false ∨ order.isRefunded = true) →
      processOrderRefund rg now oid db = (db, .error ⟨400, "Order cannot be refunded"⟩))
    ∧ (∀ r, order.isPaid = true → order.isRefunded = false →
        processRefund rg order.paymentResult.id order.totalPrice = .ok r →
        processOrderRefund rg now oid db
            = ((restockItems db order.orderItems).saveOrder oid (refundedOrder order now r),
               .ok (refundedOrder order now r))
          ∧ ((restockItems db order.orderItems).saveOrder oid
              (refundedOrder order now r)).orders oid = some (refundedOrder order now r)
          ∧ (refundedOrder order now r).isRefunded = true
          ∧ (refundedOrder order now r).refundResult = some ⟨r.id, r.status⟩
          ∧ processOrderRefund rg2 now2 oid
              ((restockItems db order.orderItems).saveOrder oid (refundedOrder order now r))
            = ((restockItems db order.orderItems).saveOrder oid (refundedOrder order now r),
               .error ⟨400, "Order cannot be refunded"⟩)) := by
  constructor
  · intro hguard
    rw [processOrderRefund, hfind]
    simp only []
    have hg : (!order.isPaid || order.isRefunded) = true := by
      rcases hguard with h | h <;> simp [h]
    rw [if_pos hg]
  · intro r hp hnr hok
    have hg : ¬(!order.isPaid || order.isRefunded) = true := by simp [hp, hnr]
    have hmain : processOrderRefund rg now oid db
        = ((restockItems db order.orderItems).saveOrder oid (refundedOrder order now r),
           .ok (refundedOrder order now r)) := by
      rw [processOrderRefund, hfind]
      simp only []
      rw [if_neg hg, hok]
    refine ⟨hmain, saveOrder_orders_self _ _ _, rfl, rfl, ?_⟩
    rw [processOrderRefund, saveOrder_orders_self]
    simp only []
    rw [if_pos (by simp [refundedOrder] :
      (!(refundedOrder order now r).isPaid || (refundedOrder order now r).isRefunded) = true)]

/-- Claim C3, witness: the paid order 1 of the concrete state, refunded with a
succeeding gateway, then refunded again. -/
theorem claim_C3_witness :
    ((orderPaid.isPaid = false ∨ orderPaid.isRefunded = true) →
      processOrderRefund rgOk 9 1 dbOrd = (dbOrd, .error ⟨400, "Order cannot be refunded"⟩))
    ∧ (∀ r, orderPaid.isPaid = true → orderPaid.isRefunded = false →
        processRefund rgOk orderPaid.paymentResult.id orderPaid.totalPrice = .ok r →
        processOrderRefund rgOk 9 1 dbOrd
            = ((restockItems dbOrd orderPaid.orderItems).saveOrder 1 (refundedOrder orderPaid 9 r),
               .ok (refundedOrder orderPaid 9 r))
          ∧ ((restockItems dbOrd orderPaid.orderItems).saveOrder 1
              (refundedOrder orderPaid 9 r)).orders 1 = some (refundedOrder orderPaid 9 r)
          ∧ (refundedOrder orderPaid 9 r).isRefunded = true
          ∧ (refundedOrder orderPaid 9 r).refundResult = some ⟨r.id, r.status⟩
          ∧ processOrderRefund rgOk 10 1
              ((restockItems dbOrd orderPaid.orderItems).saveOrder 1 (refundedOrder orderPaid 9 r))
            = ((restockItems dbOrd orderPaid.orderItems).saveOrder 1 (refundedOrder orderPaid 9 r),
               .error ⟨400, "Order cannot be refunded"⟩)) :=
  claim_C3 rgOk rgOk 9 10 1 dbOrd orderPaid rfl

/-- Claim C4: refunding an eligible order (isPaid true, isRefunded false)
whose gateway refund call fails yields the 500 response wrapping the gateway
message, and returns the state exactly as it was — the gateway request happens
before any mutation, so neither the order nor any product stock changes. -/
theorem claim_C4 (rg : Option String → Int → Except String RefundResult)
    (now : Nat) (oid : OrderId) (db : DB) (order : Order) (msg : String)
    (hfind : db.orders oid = some order)
    (hp : order.isPaid = true) (hnr : order.isRefunded = false)
    (hgw : processRefund rg order.paymentResult.id order.totalPrice = .error msg) :
    processOrderRefund rg now oid db
      = (db, .error ⟨500, "Refund processing failed: " ++ msg⟩) := by
  rw [processOrderRefund, hfind]
  simp only []
  rw [if_neg (by simp [hp, hnr] : ¬(!order.isPaid || order.isRefunded) = true), hgw]

/-- Claim C4, witness: refunding the paid order 1 with a failing gateway
returns the unchanged state and the wrapped message. -/
theorem claim_C4_witness :
    processOrderRefund rgFail 9 1 dbOrd
      = (dbOrd, .error ⟨500, "Refund processing failed: " ++ "charge_already_refunded"⟩) :=
  claim_C4 rgFail 9 1 dbOrd orderPaid "charge_already_refunded" rfl rfl rfl rfl

/-- Claim C5: when a placement passes all stock validation but the payment
authorization fails, the whole operation fails with the 500 response carrying
the gateway message, no order is persisted (the orders map is untouched), and
the stock debits already applied are NOT rolled back: every product's
countInStock is left reduced by the total quantity the request asked of it. -/
theorem claim_C5 (create : Int → String → Except String PaymentIntent)
    (user : UserId) (newOrderId : OrderId) (req : OrderReq) (db : DB) (msg : String)
    (hval : validateItems db req.orderItems = .ok ())
    (hne : req.orderItems.isEmpty = false)
    (hgw : create (jsRound (req.totalPrice * 100)) "usd" = .error msg) :
    addOrderItems create user newOrderId req db
        = (debitItems db req.orderItems, .error ⟨500, msg⟩)
      ∧ (debitItems db req.orderItems).orders = db.orders
      ∧ ∀ pid, stockOf (debitItems db req.orderItems) pid
          = (stockOf db pid).map (fun c => c - (qtyFor req.orderItems pid : Int)) := by
  refine ⟨?_, debitItems_orders _ _, fun pid => debitItems_stockOf _ _ _⟩
  have hne' : ¬(req.orderItems.isEmpty = true) := by
    rw [hne]; exact Bool.false_ne_true
  rw [addOrderItems, if_neg hne', hval]
  simp only []
  rw [createPaymentIntent, hgw]

/-- Claim C5, witness: placing quantity 3 of product 0 (stock 5) with a
failing gateway leaves stock debited to 2, persists no order, and fails. -/
theorem claim_C5_witness :
    addOrderItems gwFail 7 1 oneReq dbOne
        = (debitItems dbOne oneReq.orderItems, .error ⟨500, "card_declined"⟩)
      ∧ (debitItems dbOne oneReq.orderItems).orders = dbOne.orders
      ∧ ∀ pid, stockOf (debitItems dbOne oneReq.orderItems) pid
          = (stockOf dbOne pid).map (fun c => c - (qtyFor oneReq.orderItems pid : Int)) :=
  claim_C5 gwFail 7 1 oneReq dbOne "card_declined" rfl rfl rfl

/-- Claim C6 describes the intended payment hand-off, which the code breaks:
createPaymentIntent (stripe.js line 14) returns only
`paymentIntent.client_secret`, a string, while addOrderItems reads
`paymentIntent.id` and `paymentIntent.client_secret` off that value — both
`undefined` in JavaScript.  Evaluating a successful placement against a
gateway that answers with id "pi_123" and secret "secret_123": the order is
persisted with `paymentResult = {id: undefined, status: "pending"}` (not the
authorization id) and the response's clientSecret is `none` (the secret is not
returned to the caller).  The orderStatus = Placed and isPaid = false parts of
the claim do hold. -/
theorem claim_C6_bug :
    addOrderItems gwC6 7 1 oneReq dbOne
      = ((debitItems dbOne oneReq.orderItems).saveOrder 1
          { newOrder 7 oneReq with paymentResult := ⟨none, some "pending"⟩ },
         .ok ({ newOrder 7 oneReq with paymentResult := ⟨none, some "pending"⟩ }, none))
    ∧ gwC6 (jsRound (oneReq.totalPrice * 100)) "usd"
        = .ok ⟨"pi_123", "secret_123", "requires_payment_method"⟩
    ∧ ({ newOrder 7 oneReq with paymentResult := ⟨none, some "pending"⟩ } : Order).paymentResult.id
        ≠ some "pi_123"
    ∧ ({ newOrder 7 oneReq with paymentResult := ⟨none, some "pending"⟩ } : Order).orderStatus
        = .Placed
    ∧ ({ newOrder 7 oneReq with paymentResult := ⟨none, some "pending"⟩ } : Order).isPaid
        = false :=
  ⟨rfl, rfl, fun h => Option.noConfusion h, rfl, rfl⟩

/-- Claim C7: both gateway boundary functions convert the decimal amount to
minor units as `Math.round(amount * 100)` — the integer handed to the gateway
is exactly jsRound (amount * 100), where jsRound is round-half-up — and the
amount 19.99 (= 1999/100) is converted to exactly 1999, for the authorization
and for the refund call alike. -/
theorem claim_C7 :
    (∀ (a : ℚ) (c : String),
      createPaymentIntent recGw a c = .error (toString (jsRound (a * 100))))
    ∧ (∀ (pid : Option String) (a : ℚ),
      processRefund recRg pid a = .error (toString (jsRound (a * 100))))
    ∧ (∀ x : ℚ, jsRound x = Int.floor (x + 1/2))
    ∧ createPaymentIntent recGw (1999/100 : ℚ) "usd" = .error "1999"
    ∧ processRefund recRg (some "pi_1") (1999/100 : ℚ) = .error "1999" := by
  have h1999 : jsRound ((1999/100 : ℚ) * 100) = 1999 := by norm_num [jsRound]
  refine ⟨fun a c => rfl, fun pid a => rfl, fun x => rfl, ?_, ?_⟩
  · show Except.error (toString (jsRound ((1999/100 : ℚ) * 100))) = .error "1999"
    rw [h1999]; rfl
  · show Except.error (toString (jsRound ((1999/100 : ℚ) * 100))) = .error "1999"
    rw [h1999]; rfl

/-- Claim C8: canceling an order whose orderStatus is Shipped or Delivered
fails with the 400 "Order cannot be canceled" response and the state —
including all product stock — is returned unchanged; otherwise the cancel
succeeds, stores the order with orderStatus = Canceled and canceledAt = now,
and credits every referenced product's countInStock by the total quantity the
order's items hold of it. -/
theorem claim_C8 (now : Nat) (oid : OrderId) (db : DB) (order : Order)
    (hfind : db.orders oid = some order) :
    ((order.orderStatus = .Shipped ∨ order.orderStatus = .Delivered) →
      cancelOrder now oid db = (db, .error ⟨400, "Order cannot be canceled"⟩))
    ∧ (order.orderStatus ≠ .Shipped → order.orderStatus ≠ .Delivered →
      cancelOrder now oid db
          = ((restockItems db order.orderItems).saveOrder oid (canceledOrder order now),
             .ok (canceledOrder order now))
        ∧ ((restockItems db order.orderItems).saveOrder oid
            (canceledOrder order now)).orders oid = some (canceledOrder order now)
        ∧ (canceledOrder order now).orderStatus = .Canceled
        ∧ (canceledOrder order now).canceledAt = some now
        ∧ ∀ pid, stockOf ((restockItems db order.orderItems).saveOrder oid
              (canceledOrder order now)) pid
            = (stockOf db pid).map (fun c => c + (qtyFor order.orderItems pid : Int))) := by
  constructor
  · intro hs
    rw [cancelOrder, hfind]
    simp only []
    rw [if_pos hs]
  · intro h1 h2
    have hs : ¬(order.orderStatus = .Shipped ∨ order.orderStatus = .Delivered) := by
      rintro (hc | hc)
      · exact h1 hc
      · exact h2 hc
    refine ⟨?_, saveOrder_orders_self _ _ _, rfl, rfl, fun pid => ?_⟩
    · rw [cancelOrder, hfind]
      simp only []
      rw [if_neg hs]
    · rw [stockOf_saveOrder, restockItems_stockOf]

/-- Claim C8, witness: the theorem applied to the Placed (cancelable) order 1
of the concrete state; its first conjunct covers the Shipped/Delivered
rejection branch vacuously at this input. -/
theorem claim_C8_witness :
    ((orderPaid.orderStatus = .Shipped ∨ orderPaid.orderStatus = .Delivered) →
      cancelOrder 6 1 dbOrd = (dbOrd, .error ⟨400, "Order cannot be canceled"⟩))
    ∧ (orderPaid.orderStatus ≠ .Shipped → orderPaid.orderStatus ≠ .Delivered →
      cancelOrder 6 1 dbOrd
          = ((restockItems dbOrd orderPaid.orderItems).saveOrder 1 (canceledOrder orderPaid 6),
             .ok (canceledOrder orderPaid 6))
        ∧ ((restockItems dbOrd orderPaid.orderItems).saveOrder 1
            (canceledOrder orderPaid 6)).orders 1 = some (canceledOrder orderPaid 6)
        ∧ (canceledOrder orderPaid 6).orderStatus = .Canceled
        ∧ (canceledOrder orderPaid 6).canceledAt = some 6
        ∧ ∀ pid, stockOf ((restockItems dbOrd orderPaid.orderItems).saveOrder 1
              (canceledOrder orderPaid 6)) pid
            = (stockOf dbOrd pid).map (fun c => c + (qtyFor orderPaid.orderItems pid : Int))) :=
  claim_C8 6 1 dbOrd orderPaid rfl

/-- Claim C9: looking an order up as an identity that is neither the order's
owner nor an admin fails with the 403 response; the owner, or any identity
with the admin role, receives the order. -/
theorem claim_C9 (reqUser : ReqUser) (oid : OrderId) (db : DB) (order : Order)
    (hfind : db.orders oid = some order) :
    (order.user ≠ reqUser._id → reqUser.role ≠ "admin" →
      getOrderById reqUser oid db = (db, .error ⟨403, "Not authorized to view this order"⟩))
    ∧ ((order.user = reqUser._id ∨ reqUser.role = "admin") →
      getOrderById reqUser oid db = (db, .ok order)) := by
  constructor
  · intro h1 h2
    rw [getOrderById, hfind]
    simp only []
    rw [if_pos ⟨h1, h2⟩]
  · intro h
    have hneg : ¬(order.user ≠ reqUser._id ∧ reqUser.role ≠ "admin") := by
      rcases h with h | h
      · exact fun hc => hc.1 h
      · exact fun hc => hc.2 h
    rw [getOrderById, hfind]
    simp only []
    rw [if_neg hneg]

/-- Claim C9, witness: user 8 without the admin role is rejected on order 1
(owned by user 7); user 7 and an admin would be admitted by the second
conjunct at their own inputs. -/
theorem claim_C9_witness :
    (orderPaid.user ≠ (8 : UserId) → "customer" ≠ "admin" →
      getOrderById ⟨8, "customer"⟩ 1 dbOrd
        = (dbOrd, .error ⟨403, "Not authorized to view this order"⟩))
    ∧ ((orderPaid.user = (8 : UserId) ∨ "customer" = "admin") →
      getOrderById ⟨8, "customer"⟩ 1 dbOrd = (dbOrd, .ok orderPaid)) :=
  claim_C9 ⟨8, "customer"⟩ 1 dbOrd orderPaid rfl

/-- Claim C10: because the cancel guard rejects only Shipped and Delivered,
canceling an order that is already Canceled (or Refunded) succeeds again —
no InvalidTransitionError — and credits every referenced product's
countInStock by the item quantities one more time, so repeated cancels
inflate stock above the pre-placement level. -/
theorem claim_C10 (now : Nat) (oid : OrderId) (db : DB) (order : Order)
    (hfind : db.orders oid = some order)
    (hst : order.orderStatus = .Canceled ∨ order.orderStatus = .Refunded) :
    cancelOrder now oid db
        = ((restockItems db order.orderItems).saveOrder oid (canceledOrder order now),
           .ok (canceledOrder order now))
      ∧ ∀ pid, stockOf ((restockItems db order.orderItems).saveOrder oid
            (canceledOrder order now)) pid
          = (stockOf db pid).map (fun c => c + (qtyFor order.orderItems pid : Int)) := by
  have hs : ¬(order.orderStatus = .Shipped ∨ order.orderStatus = .Delivered) := by
    rintro (hc | hc) <;> rcases hst with h | h <;> rw [h] at hc <;> exact OrderStatus.noConfusion hc
  refine ⟨?_, fun pid => ?_⟩
  · rw [cancelOrder, hfind]
    simp only []
    rw [if_neg hs]
  · rw [stockOf_saveOrder, restockItems_stockOf]

/-- Claim C10, witness: canceling the already-Canceled order 2 succeeds and
credits product 0 by 3 once more. -/
theorem claim_C10_witness :
    cancelOrder 11 2 dbOrd
        = ((restockItems dbOrd orderCanceled.orderItems).saveOrder 2 (canceledOrder orderCanceled 11),
           .ok (canceledOrder orderCanceled 11))
      ∧ ∀ pid, stockOf ((restockItems dbOrd orderCanceled.orderItems).saveOrder 2
            (canceledOrder orderCanceled 11)) pid
          = (stockOf dbOrd pid).map (fun c => c + (qtyFor orderCanceled.orderItems pid : Int)) :=
  claim_C10 11 2 dbOrd orderCanceled rfl (Or.inl rfl)
